import Mathlib

/-!
Shallow embedding of the WikiWeave buffered-attribute wiki builder
(`wiki.py`, `section_examples/characters.py`, with the retry loop and
chunk iteration of `Wiki.read_chunks` and the running-summary logic of
`Wiki.generate_chunk_summary`), together with proofs of the testable
properties stated in the specification.

Modelling conventions:
* Python strings are Lean `String`s; character-level Python operations
  (`strip`, `lstrip`, `splitlines`, `startswith`) are defined on
  `List Char` and lifted.
* An `Attribute`'s dynamically typed `data` field (a string or a list of
  strings) is the sum type `AttrVal`.
* The external generative model is abstract: one synthesis call either
  raises inside `generate_content`, returns a response whose `.text`
  accessor raises, or returns a response with text `s`.  This is the
  inductive `GenOutcome`.
* Python exceptions are `Except String`; a raised exception that
  propagates out of a method leaves every object exactly as it was when
  the exception was raised.
* Python object identity (two dict keys referencing the same mutable
  `Character`) is modelled with an arena: a pool of characters plus a
  map from name-or-alias to pool index.
-/

namespace WikiWeave

/-- Python `str.strip()` whitespace (the ASCII cases). -/
def pyIsSpace (c : Char) : Bool :=
  c = ' ' || c = '\t' || c = '\n' || c = '\x0d' || c = '\x0b' || c = '\x0c'

/-- `content.strip()` on the character list: drop whitespace from both ends. -/
def stripChars (l : List Char) : List Char :=
  ((l.dropWhile pyIsSpace).reverse.dropWhile pyIsSpace).reverse

/-- Python `s.strip()`. -/
def pyStrip (s : String) : String :=
  ⟨stripChars s.data⟩

/-- Python `s.lstrip("- ")`: drop leading characters belonging to `\x7b'-', ' '\x7d`. -/
def pyLstripDash (s : String) : String :=
  ⟨s.data.dropWhile (fun c => c = '-' || c = ' ')⟩

/-- Python `s.startswith("- ")`. -/
def pyStartswithDash (s : String) : Bool :=
  ['-', ' '].isPrefixOf s.data

/-- Helper for `splitlines`: accumulate the current line (reversed) and split
at `\n`, `\x0d` or `\x0d\n`; a terminating line break produces no empty
trailing line, as in Python. -/
def splitlinesAux : List Char → List Char → List (List Char)
  | acc, [] => [acc.reverse]
  | acc, '\x0d' :: '\n' :: rest =>
      acc.reverse :: (if rest.isEmpty then [] else splitlinesAux [] rest)
  | acc, '\x0d' :: rest =>
      acc.reverse :: (if rest.isEmpty then [] else splitlinesAux [] rest)
  | acc, '\n' :: rest =>
      acc.reverse :: (if rest.isEmpty then [] else splitlinesAux [] rest)
  | acc, c :: rest => splitlinesAux (c :: acc) rest

/-- Python `s.splitlines()`. -/
def pySplitlines (s : String) : List String :=
  if s.data.isEmpty then [] else (splitlinesAux [] s.data).map fun l => ⟨l⟩

/-- Python `"\n".join(xs)`. -/
def pyJoinNewline (xs : List String) : String :=
  String.intercalate "\n" xs

/-- The dynamically typed `data` field of an `Attribute`: either prose
(a string) or a list of strings (alias lists). -/
inductive AttrVal where
  | str (s : String)
  | list (l : List String)
  deriving DecidableEq, Repr

/-- One synthesis call to the external generative model, seen from the
caller: `generate_content` itself raises; or it returns a response whose
`.text` accessor raises; or it returns a response with text `s`. -/
inductive GenOutcome where
  | raises
  | noText
  | text (s : String)
  deriving DecidableEq, Repr

/-- Which `Attribute` subclass an attribute instance belongs to:
`prose` covers `Personality` / `Trivia` / `Appearance` / `Description`
(they build a prompt and call the base `update_data` with a model), and
`aliasList` covers `Aliases` (membership-test deduplication, no model
call). -/
inductive AttrKind where
  | prose
  | aliasList
  deriving DecidableEq, Repr

/-- The `Attribute` dataclass of `wiki.py`: a name, an update threshold
(`update_every_n_insertions`), the buffer of raw observations and the
current synthesized `data`.  The `kind` field records the Python
subclass; `type`, `description` and `default` only feed prompt text and
`__post_init__` and are dropped. -/
structure Attribute where
  name : String
  kind : AttrKind
  update_every_n_insertions : Nat
  buffer : List String
  data : AttrVal
  deriving DecidableEq, Repr

/-- `Attribute.add_to_buffer`: `self.buffer.append(content)`. -/
def Attribute.add_to_buffer (a : Attribute) (content : String) : Attribute :=
  { a with buffer := a.buffer ++ [content] }

/-- The base `Attribute.update_data` of `wiki.py`.  `call = none` models
`model is None or prompt is None` (no synthesis attempted).  When a call
is made, `model.generate_content(prompt)` stands OUTSIDE the
`try/except`: if it raises, the exception propagates and
`self.buffer = []` is never reached, so the attribute is returned
unchanged inside `.error`.  Only the `response.text` access is guarded:
its failure is caught, `data` keeps its previous value and the buffer is
cleared. -/
def Attribute.update_data (a : Attribute) : Option GenOutcome → Except String Attribute
  | none => .ok { a with buffer := [] }
  | some .raises => .error "generate_content raised"
  | some .noText => .ok { a with buffer := [] }
  | some (.text s) => .ok { a with data := .str s, buffer := [] }

/-- `Aliases.update_data` body: `for alias in self.buffer: if alias not in
self.data: self.data.append(alias)` — fold the buffer into `data` with a
membership test. -/
def dedupAppend (d : List String) (buf : List String) : List String :=
  buf.foldl (fun acc al => if al ∈ acc then acc else acc ++ [al]) d

/-- `Aliases.update_data` (`characters.py`): deduplicate the buffer into
the `data` list by membership test, then call the base `update_data`
with NO model and NO prompt (so no synthesis call is made and the buffer
is cleared).  If `data` were a string, `self.data.append` would raise an
`AttributeError`; the `Aliases` attribute always holds a list. -/
def Aliases.update_data (a : Attribute) : Except String Attribute :=
  match a.data with
  | .list d => Attribute.update_data { a with data := .list (dedupAppend d a.buffer) } none
  | .str _ => .error "AttributeError: str object has no attribute append"

/-- `Personality.update_data` (and the other prose subclasses): build the
templated prompt and call the base `update_data` with the model, i.e.
with a real synthesis call whose outcome is `g`. -/
def Personality.update_data (a : Attribute) (g : GenOutcome) : Except String Attribute :=
  Attribute.update_data a (some g)

/-- Dispatch of `attr.update_data(...)` in `Wiki.update_sections` through
the attribute's Python subclass. -/
def Attribute.updateDispatch (a : Attribute) (g : GenOutcome) : Except String Attribute :=
  match a.kind with
  | .prose => Personality.update_data a g
  | .aliasList => Aliases.update_data a

/-- `Aliases.to_markdown`: newline-joined `- item` bullets. -/
def Aliases.to_markdown (a : Attribute) : String :=
  match a.data with
  | .list d => pyJoinNewline (d.map fun item => "- " ++ item)
  | .str s => s

/-- `Aliases.from_markdown`: strip, split lines, keep bullet lines, strip
the bullet prefix and surrounding whitespace. -/
def Aliases.from_markdown (a : Attribute) (content : String) : Attribute :=
  let lines := pySplitlines (pyStrip content)
  let items := (lines.filter pyStartswithDash).map fun line => pyStrip (pyLstripDash line)
  { a with data := .list items }

/-- `Personality.to_markdown`: the raw `data` string. -/
def Personality.to_markdown (a : Attribute) : String :=
  match a.data with
  | .str s => s
  | .list _ => ""

/-- `Personality.from_markdown`: `self.data = content.strip()`. -/
def Personality.from_markdown (a : Attribute) (content : String) : Attribute :=
  { a with data := .str (pyStrip content) }

/-! ### Wiki-level state: running summary, retry loop, chunk iteration -/

/-- Python `l[-n:]` for a non-negative `n`.  For `n ≥ 1` this is the last
`min n l.length` elements; for `n = 0` the slice `l[-0:]` is `l[0:]`,
i.e. the WHOLE list. -/
def pyLastSlice (n : Nat) (l : List α) : List α :=
  if n = 0 then l else l.drop (l.length - n)

/-- `Wiki.generate_chunk_summary`: append the summary, then truncate via
`self.running_summary[-self.use_n_prev_chunks:]`. -/
def generate_chunk_summary (use_n_prev_chunks : Nat) (running_summary : List String)
    (summary : String) : List String :=
  pyLastSlice use_n_prev_chunks (running_summary ++ [summary])

/-- The retry loop of `Wiki.read_chunks` for one chunk.  `outcome i` is
what the `i`-th call to `self.add_model.generate_content` would do:
`none` = raise, `some r` = return response `r`.  The loop runs while
`response is None and tries <= max_retries`, incrementing `tries` on
each failure; afterwards `tries > max_retries` raises
`Exception("Error calling Gemini API")`. -/
def retryLoop (outcome : Nat → Option R) (max_retries : Nat) (tries : Nat) :
    Except String R :=
  if _h : tries ≤ max_retries then
    match outcome tries with
    | some r => .ok r
    | none => retryLoop outcome max_retries (tries + 1)
  else .error "Error calling Gemini API"
  termination_by max_retries + 1 - tries

/-- One chunk dispatch with its retry policy: `tries = 0`,
`max_retries = 10`. -/
def dispatchWithRetries (outcome : Nat → Option R) : Except String R :=
  retryLoop outcome 10 0

/-- Python `l[a:b]` for non-negative `a ≤ b`. -/
def pySlice (a b : Nat) (l : List α) : List α :=
  (l.drop a).take (b - a)

/-- The chunks actually iterated by `Wiki.read_chunks`:
`for curr_node in self.docstore.nodes[3:7]`. -/
def read_chunks_nodes (nodes : List α) : List α :=
  pySlice 3 7 nodes

/-! ### The Characters section (`section_examples/characters.py`)

Python dict values are references to mutable `Character` objects; an
alias key points at the SAME object as the primary name.  The arena
model: `pool` is the heap of `Character` objects, `entities` maps each
name-or-alias to a pool index. -/

/-- A `Character`'s fixed attribute set, as built by
`CharacterAttributes.get_attributes`. -/
structure Character where
  name : String
  personality : Attribute
  aliases : Attribute
  trivia : Attribute
  appearance : Attribute
  deriving DecidableEq, Repr

/-- A fresh `Character(name=name)` with the `CharacterAttributes`
defaults: personality (threshold 3, default `""`), aliases (threshold 1,
default `[]`), trivia (threshold 3, default `""`), appearance
(threshold 2, default `""`). -/
def Character.fresh (name : String) : Character where
  name := name
  personality :=
    { name := "personality", kind := .prose, update_every_n_insertions := 3
      buffer := [], data := .str "" }
  aliases :=
    { name := "aliases", kind := .aliasList, update_every_n_insertions := 1
      buffer := [], data := .list [] }
  trivia :=
    { name := "trivia", kind := .prose, update_every_n_insertions := 3
      buffer := [], data := .str "" }
  appearance :=
    { name := "appearance", kind := .prose, update_every_n_insertions := 2
      buffer := [], data := .str "" }

/-- The `Characters` section state: the heap of `Character` objects and
the `entities` dict from name-or-alias to object reference (pool
index), in insertion order. -/
structure Characters where
  pool : List Character
  entities : List (String × Nat)
  deriving DecidableEq, Repr

/-- `self.entities.get(name)` resolved to a pool index: the dict lookup. -/
def Characters.lookupId (s : Characters) (name : String) : Option Nat :=
  (s.entities.find? (fun kv => kv.1 = name)).map (·.2)

/-- Dereference a name to the `Character` object it points at. -/
def Characters.getCharacter (s : Characters) (name : String) : Option Character :=
  (s.lookupId name).bind (fun i => s.pool[i]?)

/-- Mutate the pooled `Character` that `i` references. -/
def Characters.modifyPool (s : Characters) (i : Nat) (f : Character → Character) :
    Characters :=
  { s with pool := s.pool.modify f i }

/-- `Characters.add_character`: idempotent creation — a no-op when `name`
is already a key, otherwise a fresh `Character` is allocated and
registered under `name`. -/
def Characters.add_character (s : Characters) (name : String) : Characters :=
  if s.lookupId name = none then
    { pool := s.pool ++ [Character.fresh name]
      entities := s.entities ++ [(name, s.pool.length)] }
  else s

/-- `Characters.add_to_character_personality`: look the character up by
name; raise `ValueError` when absent; otherwise append `content` to the
personality buffer. -/
def Characters.add_to_character_personality (s : Characters) (name content : String) :
    Except String Characters :=
  match s.lookupId name with
  | none => .error ("Character " ++ name ++ " does not exist.")
  | some i => .ok (s.modifyPool i fun c =>
      { c with personality := c.personality.add_to_buffer content })

/-- `Characters.add_to_character_trivia`: same contract, trivia buffer. -/
def Characters.add_to_character_trivia (s : Characters) (name content : String) :
    Except String Characters :=
  match s.lookupId name with
  | none => .error ("Character " ++ name ++ " does not exist.")
  | some i => .ok (s.modifyPool i fun c =>
      { c with trivia := c.trivia.add_to_buffer content })

/-- `Characters.add_to_character_appearance`: same contract, appearance
buffer. -/
def Characters.add_to_character_appearance (s : Characters) (name content : String) :
    Except String Characters :=
  match s.lookupId name with
  | none => .error ("Character " ++ name ++ " does not exist.")
  | some i => .ok (s.modifyPool i fun c =>
      { c with appearance := c.appearance.add_to_buffer content })

/-- `Characters.add_to_character_aliases`: look the character up by name
(raising `ValueError` when absent), append `alias` to its aliases
buffer, and only then, `if alias not in self.entities`, bind the alias
key to the SAME `Character` object. -/
def Characters.add_to_character_aliases (s : Characters) (name alias_ : String) :
    Except String Characters :=
  match s.lookupId name with
  | none => .error ("Character " ++ name ++ " does not exist.")
  | some i =>
      let s1 := s.modifyPool i fun c =>
        { c with aliases := c.aliases.add_to_buffer alias_ }
      if s1.lookupId alias_ = none then
        .ok { s1 with entities := s1.entities ++ [(alias_, i)] }
      else .ok s1

/-! ### `Wiki.update_sections` -/

/-- The per-attribute step of `Wiki.update_sections`:
`update_due = attr.update_every_n_insertions <= len(attr.buffer)`;
`if update_due or (force and len(attr.buffer)): attr.update_data(...)`.
`g` is the outcome the synthesis backend would produce for this
attribute's prompt. -/
def updateAttrStep (force : Bool) (g : GenOutcome) (a : Attribute) :
    Except String Attribute :=
  let update_due := decide (a.update_every_n_insertions ≤ a.buffer.length)
  if update_due || (force && !(a.buffer.length == 0)) then a.updateDispatch g
  else .ok a

/-- The attributes of one `Character` in the iteration order of
`CharacterAttributes.get_attributes`: personality, trivia, aliases,
appearance. -/
def Character.attrList (c : Character) : List Attribute :=
  [c.personality, c.trivia, c.aliases, c.appearance]

/-- Rebuild a `Character` from an updated attribute list (inverse of
`Character.attrList` for the fixed four-attribute shape). -/
def Character.withAttrList (c : Character) (l : List Attribute) : Character :=
  match l with
  | [p, t, al, ap] =>
      { c with personality := p, trivia := t, aliases := al, appearance := ap }
  | _ => c

/-- The inner loop of `Wiki.update_sections` over one entity's
`attributes` dict. -/
def updateCharacter (force : Bool) (g : GenOutcome) (c : Character) :
    Except String Character := do
  let attrs ← c.attrList.mapM (updateAttrStep force g)
  pure (c.withAttrList attrs)

/-- `Wiki.update_sections` restricted to one `Characters` section:
`for entity_name, entity in section.entities.items()` walks the dict in
insertion order (so an entity reachable under an alias is visited once
per key, through the shared reference), and for every attribute runs
the threshold check and the due updates; a raised exception aborts the
pass (it propagates out of `update_sections`). -/
def update_sections (force : Bool) (g : GenOutcome) (s : Characters) :
    Except String Characters :=
  s.entities.foldlM
    (fun st kv =>
      match st.pool[kv.2]? with
      | some c => do
          let c1 ← updateCharacter force g c
          pure { st with pool := st.pool.set kv.2 c1 }
      | none => pure st)
    s

/-! ### Refinement definition for the spec's claimed update guard -/

/-- Modelled from the claim's words (not from the source): update is
claimed to be invoked exactly when "the buffer length is greater than or
equal to the attribute's update threshold, or the force flag is set". -/
def specClaimedUpdateGuard (force : Bool) (a : Attribute) : Bool :=
  decide (a.update_every_n_insertions ≤ a.buffer.length) || force

/-! ### Shared concrete states used in scenarios and witnesses -/

/-- A `Characters` section with no entities. -/
def emptyCharacters : Characters := { pool := [], entities := [] }

/-- A prose attribute like `Personality` with threshold 3, one buffered
observation and previously synthesized data `"old"`. -/
def proseAttr1 : Attribute :=
  { name := "personality", kind := .prose, update_every_n_insertions := 3
    buffer := ["x"], data := .str "old" }

/-- A prose attribute like `Personality` with threshold 3, an EMPTY
buffer and previously synthesized data `"old"`. -/
def proseAttr0 : Attribute :=
  { name := "personality", kind := .prose, update_every_n_insertions := 3
    buffer := [], data := .str "old" }

/-- Create "Alice", then register the alias "Redwitch" with the alias
tool. -/
def aliceAliased : Except String Characters :=
  (emptyCharacters.add_character "Alice").add_to_character_aliases "Alice" "Redwitch"

/-- After aliasing, append a personality observation via the alias
"Redwitch". -/
def aliceObserved : Except String Characters :=
  aliceAliased.bind fun s2 => s2.add_to_character_personality "Redwitch" "obs"

/-! ## C1: buffer clearing and data retention in `Attribute.update_data` -/

/-- C1, counterexample.  The claim says the buffer is empty after
`update_data` whether or not the synthesis call succeeded.  But
`model.generate_content(prompt)` stands OUTSIDE the `try/except` in
`Attribute.update_data`: when it raises, the exception propagates before
`self.buffer = []` is reached, so the call fails with the buffer still
holding its one observation. -/
theorem update_data_raises_keeps_buffer :
    Attribute.update_data proseAttr1 (some .raises) = .error "generate_content raised" ∧
    proseAttr1.buffer = ["x"] := by
  exact ⟨rfl, rfl⟩

/-- C1, amended.  Whenever `update_data` RETURNS (the synthesis call was
skipped, or succeeded, or only the `response.text` access failed — the
one failure the `except` catches), the buffer is empty afterwards, and
`data` keeps its previous value except when the call returned text.  But
when `generate_content` itself raises, the exception propagates
(`.error`) and the buffer is never cleared. -/
theorem update_data_clears_buffer_unless_generate_raises
    (a : Attribute) (call : Option GenOutcome) (hnr : call ≠ some .raises) :
    (∃ a1, a.update_data call = .ok a1 ∧ a1.buffer = [] ∧
      ((∀ s, call ≠ some (.text s)) → a1.data = a.data)) ∧
    (∀ b : Attribute, b.update_data (some .raises) = .error "generate_content raised") := by
  refine ⟨?_, fun b => rfl⟩
  match call with
  | none => exact ⟨_, rfl, rfl, fun _ => rfl⟩
  | some .raises => exact absurd rfl hnr
  | some .noText => exact ⟨_, rfl, rfl, fun _ => rfl⟩
  | some (.text s) => exact ⟨_, rfl, rfl, fun h => absurd rfl (h s)⟩

/-- C1, witness: the amended theorem applied to the concrete attribute
`proseAttr1` with a call whose `response.text` access fails. -/
theorem update_data_clears_buffer_unless_generate_raises_witness :
    ∃ a1, proseAttr1.update_data (some .noText) = .ok a1 ∧ a1.buffer = [] ∧
      ((∀ s, some GenOutcome.noText ≠ some (.text s)) → a1.data = proseAttr1.data) :=
  (update_data_clears_buffer_unless_generate_raises proseAttr1 (some .noText)
    (by decide)).1

/-! ## C4: markdown round-trips -/

/-- C4: `from_markdown ∘ to_markdown` reconstructs a list-valued
attribute's `["a", "b"]` exactly, and preserves a string-valued
attribute's `"Hello\nWorld"` exactly (its boundary-whitespace trim is
the identity here). -/
theorem markdown_roundtrip :
    (Aliases.from_markdown
      { name := "aliases", kind := .aliasList, update_every_n_insertions := 1
        buffer := [], data := .list ["a", "b"] }
      (Aliases.to_markdown
        { name := "aliases", kind := .aliasList, update_every_n_insertions := 1
          buffer := [], data := .list ["a", "b"] })).data = .list ["a", "b"] ∧
    (Personality.from_markdown
      { name := "personality", kind := .prose, update_every_n_insertions := 3
        buffer := [], data := .str "Hello\nWorld" }
      (Personality.to_markdown
        { name := "personality", kind := .prose, update_every_n_insertions := 3
          buffer := [], data := .str "Hello\nWorld" })).data = .str "Hello\nWorld" ∧
    pyStrip "Hello\nWorld" = "Hello\nWorld" := by
  refine ⟨by decide, by decide, by decide⟩

/-! ## C9: the chunk loop does not consume the whole source -/

/-- C9: `Wiki.read_chunks` iterates `self.docstore.nodes[3:7]`, a
hard-coded debug slice.  On a docstore of eight chunks it processes only
chunks 3–6, skipping chunks 0–2 and 7, so the source is NOT consumed
front-to-back to exhaustion. -/
theorem read_chunks_slices_3_to_7 :
    read_chunks_nodes ["c0", "c1", "c2", "c3", "c4", "c5", "c6", "c7"] =
      ["c3", "c4", "c5", "c6"] ∧
    read_chunks_nodes ["c0", "c1", "c2", "c3", "c4", "c5", "c6", "c7"] ≠
      ["c0", "c1", "c2", "c3", "c4", "c5", "c6", "c7"] := by
  refine ⟨by decide, by decide⟩

/-! ## C3: deduplication in `Aliases.update_data` -/

theorem dedupAppend_nodup (buf : List String) (d : List String) (hd : d.Nodup) :
    (dedupAppend d buf).Nodup := by
  induction buf generalizing d with
  | nil => exact hd
  | cons x buf ih =>
      show (dedupAppend (if x ∈ d then d else d ++ [x]) buf).Nodup
      by_cases hx : x ∈ d
      · simpa [hx] using ih d hd
      · refine ih _ ?_
        simp [hx, List.nodup_append, hd]

theorem mem_dedupAppend (buf : List String) (d : List String) (y : String) :
    y ∈ dedupAppend d buf ↔ y ∈ d ∨ y ∈ buf := by
  induction buf generalizing d with
  | nil => simp [dedupAppend]
  | cons x buf ih =>
      show y ∈ dedupAppend (if x ∈ d then d else d ++ [x]) buf ↔ _
      by_cases hx : x ∈ d
      · rw [if_pos hx, ih]
        constructor
        · rintro (h | h)
          · exact Or.inl h
          · exact Or.inr (List.mem_cons_of_mem _ h)
        · rintro (h | h)
          · exact Or.inl h
          · rcases List.mem_cons.mp h with rfl | h
            · exact Or.inl hx
            · exact Or.inr h
      · rw [if_neg hx, ih]
        simp only [List.mem_append, List.mem_singleton, List.mem_cons]
        tauto

theorem dedupAppend_of_mem (d : List String) (s : String) (h : s ∈ d) :
    dedupAppend d [s] = d := by
  simp [dedupAppend, h]

/-- C3: `Aliases.update_data` deduplicates the buffer into `data` by
membership test and makes no synthesis call (it invokes the base
`update_data` with neither model nor prompt — note its type takes no
`GenOutcome` at all).  Starting from any duplicate-free `data` list,
buffering the string `s` and updating, then buffering the same `s`
again and updating a second time, leaves a duplicate-free `data` list
containing `s`, and the second cycle changes nothing at all. -/
theorem aliases_update_dedups (a : Attribute) (d : List String) (s : String)
    (hdata : a.data = .list d) (hd : d.Nodup) :
    ∃ a1 d1, Aliases.update_data (a.add_to_buffer s) = .ok a1 ∧
      a1.buffer = [] ∧ a1.data = .list d1 ∧ d1.Nodup ∧ s ∈ d1 ∧
      Aliases.update_data (a1.add_to_buffer s) = .ok a1 := by
  refine ⟨{ a with data := .list (dedupAppend d (a.buffer ++ [s])), buffer := [] },
    dedupAppend d (a.buffer ++ [s]), ?_, rfl, rfl, ?_, ?_, ?_⟩
  · simp [Aliases.update_data, Attribute.add_to_buffer, hdata, Attribute.update_data]
  · exact dedupAppend_nodup _ _ hd
  · exact (mem_dedupAppend _ _ _).mpr (Or.inr (by simp))
  · have hs : s ∈ dedupAppend d (a.buffer ++ [s]) :=
      (mem_dedupAppend _ _ _).mpr (Or.inr (by simp))
    simp [Aliases.update_data, Attribute.add_to_buffer, Attribute.update_data,
      dedupAppend_of_mem _ _ hs]

/-- C3, witness: the theorem applied to the default `Aliases` attribute
(`data = []`) and the alias `"x"`. -/
theorem aliases_update_dedups_witness :
    ∃ a1 d1,
      Aliases.update_data ((Character.fresh "Alice").aliases.add_to_buffer "x") = .ok a1 ∧
      a1.buffer = [] ∧ a1.data = .list d1 ∧ d1.Nodup ∧ "x" ∈ d1 ∧
      Aliases.update_data (a1.add_to_buffer "x") = .ok a1 :=
  aliases_update_dedups (Character.fresh "Alice").aliases [] "x" rfl List.nodup_nil

/-! ## C6: mutation tools fail on a missing entity, without mutation -/

/-- C6: every mutation tool of the `Characters` section
(`add_to_character_personality`, `_trivia`, `_appearance`, `_aliases`),
called with a name that is not a key of the entities dict, raises
`ValueError(f"Character {name} does not exist.")` before touching
anything: no entity is auto-created and no buffer, data or registry
entry is written (the `.error` result returns no successor state — the
section is exactly as it was). -/
theorem mutation_tools_fail_not_found (s : Characters) (name content alias_ : String)
    (h : s.lookupId name = none) :
    s.add_to_character_personality name content =
      .error ("Character " ++ name ++ " does not exist.") ∧
    s.add_to_character_trivia name content =
      .error ("Character " ++ name ++ " does not exist.") ∧
    s.add_to_character_appearance name content =
      .error ("Character " ++ name ++ " does not exist.") ∧
    s.add_to_character_aliases name alias_ =
      .error ("Character " ++ name ++ " does not exist.") := by
  simp [Characters.add_to_character_personality, Characters.add_to_character_trivia,
    Characters.add_to_character_appearance, Characters.add_to_character_aliases, h]

/-- C6, witness: mutating the nonexistent "Alice" in the empty section. -/
theorem mutation_tools_fail_not_found_witness :
    emptyCharacters.add_to_character_personality "Alice" "c" =
      .error ("Character " ++ "Alice" ++ " does not exist.") ∧
    emptyCharacters.add_to_character_trivia "Alice" "c" =
      .error ("Character " ++ "Alice" ++ " does not exist.") ∧
    emptyCharacters.add_to_character_appearance "Alice" "c" =
      .error ("Character " ++ "Alice" ++ " does not exist.") ∧
    emptyCharacters.add_to_character_aliases "Alice" "Redwitch" =
      .error ("Character " ++ "Alice" ++ " does not exist.") :=
  mutation_tools_fail_not_found emptyCharacters "Alice" "c" "Redwitch" rfl

/-! ## C8: alias keys share the entity instance -/

/-- C8: after creating "Alice" and registering the alias "Redwitch",
both keys resolve to the same pool reference (index 0), so they
dereference to the SAME `Character`; a personality observation appended
through "Redwitch" is visible when the entity is looked up as "Alice". -/
theorem alias_lookup_shares_instance :
    (aliceAliased.map fun s2 => s2.lookupId "Alice") = .ok (some 0) ∧
    (aliceAliased.map fun s2 => s2.lookupId "Redwitch") = .ok (some 0) ∧
    (aliceObserved.map fun s3 =>
      (s3.getCharacter "Alice").map fun c => c.personality.buffer) = .ok (some ["obs"]) ∧
    (aliceObserved.map fun s3 =>
      decide (s3.getCharacter "Alice" = s3.getCharacter "Redwitch")) = .ok true := by
  refine ⟨rfl, rfl, rfl, rfl⟩

/-! ## C10: frame effect of `add_to_character_aliases` on the entity map -/

/-- Unfolding of `add_to_character_aliases` on a successful name
lookup: the aliases buffer is always appended to; the entities dict is
extended only when the alias key is absent. -/
theorem add_alias_eq (s : Characters) (name alias_ : String) (i : Nat)
    (h : s.lookupId name = some i) :
    s.add_to_character_aliases name alias_ =
      if s.lookupId alias_ = none then
        .ok ⟨s.pool.modify (fun c => { c with aliases := c.aliases.add_to_buffer alias_ }) i,
          s.entities ++ [(alias_, i)]⟩
      else
        .ok ⟨s.pool.modify (fun c => { c with aliases := c.aliases.add_to_buffer alias_ }) i,
          s.entities⟩ := by
  unfold Characters.add_to_character_aliases
  rw [h]
  rfl

/-- C10: when the looked-up `name` resolves to pool reference `i`,
`add_to_character_aliases` always appends `alias` to that character's
aliases buffer (and touches nothing else in the pool); the entities
dict is left COMPLETELY unchanged when `alias` is already a key (no
rebinding, no merge — the `if alias not in self.entities` guard), and
gains the single shared-reference entry `(alias, i)` exactly when
`alias` was absent. -/
theorem add_alias_frame (s : Characters) (name alias_ : String) (i : Nat)
    (h : s.lookupId name = some i) :
    ∃ s1, s.add_to_character_aliases name alias_ = .ok s1 ∧
      ((s.lookupId alias_).isSome → s1.entities = s.entities) ∧
      (s.lookupId alias_ = none → s1.entities = s.entities ++ [(alias_, i)]) ∧
      (∀ j, j ≠ i → s1.pool[j]? = s.pool[j]?) ∧
      (∀ c, s.pool[i]? = some c →
        s1.pool[i]? = some { c with aliases := c.aliases.add_to_buffer alias_ }) := by
  cases halias : s.lookupId alias_ with
  | none =>
      refine ⟨⟨s.pool.modify (fun c => { c with aliases := c.aliases.add_to_buffer alias_ }) i,
          s.entities ++ [(alias_, i)]⟩, ?_, ?_, fun _ => rfl, ?_, ?_⟩
      · rw [add_alias_eq s name alias_ i h, if_pos halias]
      · intro hcontra; simp at hcontra
      · intro j hj
        exact List.getElem?_modify_ne _ _ (Ne.symm hj)
      · intro c hc
        show (s.pool.modify _ i)[i]? = _
        rw [List.getElem?_modify_eq, hc]
        rfl
  | some i0 =>
      refine ⟨⟨s.pool.modify (fun c => { c with aliases := c.aliases.add_to_buffer alias_ }) i,
          s.entities⟩, ?_, fun _ => rfl, ?_, ?_, ?_⟩
      · rw [add_alias_eq s name alias_ i h, if_neg (by simp [halias])]
      · intro hcontra; simp at hcontra
      · intro j hj
        exact List.getElem?_modify_ne _ _ (Ne.symm hj)
      · intro c hc
        show (s.pool.modify _ i)[i]? = _
        rw [List.getElem?_modify_eq, hc]
        rfl

/-- C10, witness: "Alice" and "Bob" both exist as entities; registering
"Bob" as an alias of "Alice" leaves the entity map unchanged while
still buffering the alias on Alice's aliases attribute. -/
theorem add_alias_frame_witness :
    ∃ s1, ((emptyCharacters.add_character "Alice").add_character
        "Bob").add_to_character_aliases "Alice" "Bob" = .ok s1 ∧
      ((((emptyCharacters.add_character "Alice").add_character
        "Bob").lookupId "Bob").isSome →
        s1.entities = ((emptyCharacters.add_character "Alice").add_character
          "Bob").entities) ∧
      (((emptyCharacters.add_character "Alice").add_character
        "Bob").lookupId "Bob" = none →
        s1.entities = ((emptyCharacters.add_character "Alice").add_character
          "Bob").entities ++ [("Bob", 0)]) ∧
      (∀ j, j ≠ 0 →
        s1.pool[j]? = (((emptyCharacters.add_character "Alice").add_character
          "Bob").pool)[j]?) ∧
      (∀ c, (((emptyCharacters.add_character "Alice").add_character
          "Bob").pool)[0]? = some c →
        s1.pool[0]? = some { c with aliases := c.aliases.add_to_buffer "Bob" }) :=
  add_alias_frame ((emptyCharacters.add_character "Alice").add_character "Bob")
    "Alice" "Bob" 0 (by decide)

/-! ## C2: when `update_sections` invokes `update()` -/

/-- Alice with two buffered personality observations (threshold 3). -/
def aliceTwoObs : Except String Characters :=
  ((emptyCharacters.add_character "Alice").add_to_character_personality
    "Alice" "p1").bind fun s => s.add_to_character_personality "Alice" "p2"

/-- Alice with three buffered personality observations (threshold 3). -/
def aliceThreeObs : Except String Characters :=
  aliceTwoObs.bind fun s => s.add_to_character_personality "Alice" "p3"

/-- C2, counterexample.  The claimed guard ("buffer length ≥ threshold,
or the force flag is set") fires on a threshold-3 attribute with an
EMPTY buffer under `force`, but the code's guard
`update_due or (force and len(attr.buffer))` does not: the attribute
passes through `updateAttrStep` untouched (`data` still `"old"`),
whereas an actual invocation of `update()` would have synthesized
`"new"` into `data`. -/
theorem force_on_empty_buffer_skips_update :
    specClaimedUpdateGuard true proseAttr0 = true ∧
    updateAttrStep true (.text "new") proseAttr0 = .ok proseAttr0 ∧
    Personality.update_data proseAttr0 (.text "new") =
      .ok { proseAttr0 with data := .str "new" } ∧
    proseAttr0.data = .str "old" := by
  refine ⟨rfl, rfl, rfl, rfl⟩

/-- C2, amended.  In the updating pass, an attribute's `update()` is
invoked exactly when its buffer length reaches its threshold, or the
force flag is set AND the buffer is non-empty.  In particular, for the
threshold-3 personality attribute: after two buffered items the pass
changes nothing; after the third item the update fires, the buffer is
cleared to length 0 and `data` receives the synthesized value. -/
theorem update_invoked_iff_due_or_forced_nonempty :
    (∀ (force : Bool) (g : GenOutcome) (a : Attribute),
      updateAttrStep force g a =
        if a.update_every_n_insertions ≤ a.buffer.length ∨ (force = true ∧ a.buffer ≠ [])
        then a.updateDispatch g else .ok a) ∧
    aliceTwoObs.bind (update_sections false (.text "synth")) = aliceTwoObs ∧
    (aliceThreeObs.bind (update_sections false (.text "synth"))).map
      (fun s => (s.getCharacter "Alice").map fun c =>
        (c.personality.buffer.length, c.personality.data)) = .ok (some (0, .str "synth")) := by
  refine ⟨?_, rfl, rfl⟩
  intro force g a
  unfold updateAttrStep
  by_cases hdue : a.update_every_n_insertions ≤ a.buffer.length
  · simp [hdue]
  · by_cases hforce : force = true
    · by_cases hbuf : a.buffer = []
      · simp [hdue, hforce, hbuf]
      · have : a.buffer.length ≠ 0 := by
          simpa [List.length_eq_zero] using hbuf
        simp [hdue, hforce, hbuf, this]
    · simp [hdue, hforce]

/-! ## C5: the running summary bound -/

/-- C5, counterexample.  The truncation is the Python slice
`self.running_summary[-self.use_n_prev_chunks:]`; with
`use_n_prev_chunks = 0` that slice is `[-0:]`, i.e. `[0:]` — the whole
list.  Appending `0 + 1` summaries leaves 1 entry, not "exactly the
last 0". -/
theorem running_summary_unbounded_at_zero :
    generate_chunk_summary 0 [] "s" = ["s"] ∧
    ¬ (generate_chunk_summary 0 [] "s").length ≤ 0 := by
  refine ⟨rfl, by decide⟩

theorem generate_chunk_summary_eq (n : Nat) (hn : n ≠ 0) (rs : List String) (s : String) :
    generate_chunk_summary n rs s =
      (rs ++ [s]).drop ((rs ++ [s]).length - n) := by
  simp [generate_chunk_summary, pyLastSlice, hn]

theorem drop_sub_append_drop_sub (n : Nat) (l t : List α) :
    (l.drop (l.length - n) ++ t).drop ((l.drop (l.length - n) ++ t).length - n) =
      (l ++ t).drop ((l ++ t).length - n) := by
  rw [List.drop_append_eq_append_drop, List.drop_append_eq_append_drop, List.drop_drop]
  congr 1
  · congr 1
    simp only [List.length_append, List.length_drop]
    omega
  · congr 1
    simp only [List.length_append, List.length_drop]
    omega

theorem foldl_generate_chunk_summary (n : Nat) (hn : n ≠ 0) :
    ∀ (ss rs : List String), rs.length ≤ n →
      List.foldl (generate_chunk_summary n) rs ss =
        (rs ++ ss).drop ((rs ++ ss).length - n) := by
  intro ss
  induction ss with
  | nil =>
      intro rs h
      simp [Nat.sub_eq_zero_of_le h]
  | cons s ss ih =>
      intro rs h
      rw [List.foldl_cons, generate_chunk_summary_eq n hn]
      have hlen : ((rs ++ [s]).drop ((rs ++ [s]).length - n)).length ≤ n := by
        simp only [List.length_drop]
        omega
      rw [ih _ hlen, drop_sub_append_drop_sub]
      simp

/-- C5, amended.  For every POSITIVE capacity `use_n_prev_chunks = n`,
after appending `n + k` summaries to an initially empty running summary
exactly the last `n` remain, in their original relative order, and no
intermediate state ever exceeds `n` entries.  (The claim fails only at
`n = 0`, where the Python slice `[-0:]` keeps everything.) -/
theorem running_summary_keeps_last_n (n k : Nat) (hn : 1 ≤ n) (ss : List String)
    (hlen : ss.length = n + k) :
    List.foldl (generate_chunk_summary n) [] ss = ss.drop k ∧
    (List.foldl (generate_chunk_summary n) [] ss).length = n ∧
    (∀ m, (List.foldl (generate_chunk_summary n) [] (ss.take m)).length ≤ n) := by
  have hn0 : n ≠ 0 := by omega
  have hmain := foldl_generate_chunk_summary n hn0 ss [] (by simp)
  simp only [List.nil_append] at hmain
  refine ⟨?_, ?_, ?_⟩
  · rw [hmain, hlen]
    congr 1
    omega
  · rw [hmain]
    simp only [List.length_drop]
    omega
  · intro m
    have h := foldl_generate_chunk_summary n hn0 (ss.take m) [] (by simp)
    simp only [List.nil_append] at h
    rw [h]
    simp only [List.length_drop]
    omega

/-- C5, witness: capacity 2, four summaries appended one per chunk; the
last two remain in order. -/
theorem running_summary_keeps_last_n_witness :
    List.foldl (generate_chunk_summary 2) [] ["a", "b", "c", "d"] =
      (["a", "b", "c", "d"].drop 2) ∧
    (List.foldl (generate_chunk_summary 2) [] ["a", "b", "c", "d"]).length = 2 ∧
    (∀ m, (List.foldl (generate_chunk_summary 2) [] (["a", "b", "c", "d"].take m)).length ≤ 2) :=
  running_summary_keeps_last_n 2 2 (by decide) ["a", "b", "c", "d"] (by decide)

/-! ## C7: the retry policy of the chunk dispatch -/

theorem retryLoop_all_fail (outcome : Nat → Option R) (max_retries : Nat) :
    ∀ tries, (∀ i, tries ≤ i → i ≤ max_retries → outcome i = none) →
      retryLoop outcome max_retries tries = .error "Error calling Gemini API" := by
  have key : ∀ fuel tries, max_retries + 1 - tries ≤ fuel →
      (∀ i, tries ≤ i → i ≤ max_retries → outcome i = none) →
      retryLoop outcome max_retries tries = .error "Error calling Gemini API" := by
    intro fuel
    induction fuel with
    | zero =>
        intro tries hf h
        unfold retryLoop
        have hgt : ¬ tries ≤ max_retries := by omega
        simp [hgt]
    | succ fuel ih =>
        intro tries hf h
        unfold retryLoop
        by_cases ht : tries ≤ max_retries
        · simp only [ht, dif_pos, h tries le_rfl ht]
          exact ih (tries + 1) (by omega) (fun i hi hile => h i (by omega) hile)
        · simp [ht]
  intro tries h
  exact key (max_retries + 1 - tries) tries le_rfl h

theorem retryLoop_first_success (outcome : Nat → Option R) (max_retries : Nat) :
    ∀ tries k r, tries ≤ k → k ≤ max_retries →
      (∀ i, tries ≤ i → i < k → outcome i = none) → outcome k = some r →
      retryLoop outcome max_retries tries = .ok r := by
  have key : ∀ fuel tries k r, max_retries + 1 - tries ≤ fuel → tries ≤ k →
      k ≤ max_retries → (∀ i, tries ≤ i → i < k → outcome i = none) →
      outcome k = some r → retryLoop outcome max_retries tries = .ok r := by
    intro fuel
    induction fuel with
    | zero =>
        intro tries k r hf htk hkm hfail hk
        omega
    | succ fuel ih =>
        intro tries k r hf htk hkm hfail hk
        unfold retryLoop
        have ht : tries ≤ max_retries := by omega
        rcases Nat.eq_or_lt_of_le htk with rfl | hlt
        · simp [ht, hk]
        · simp only [ht, dif_pos, hfail tries le_rfl hlt]
          exact ih (tries + 1) k r (by omega) (by omega) hkm
            (fun i hi hik => hfail i (by omega) hik) hk
  intro tries k r htk hkm hfail hk
  exact key (max_retries + 1 - tries) tries k r le_rfl htk hkm hfail hk

/-- C7: the chunk dispatch makes the call, then retries on any raised
API error while `tries <= max_retries` with `max_retries = 10`: a call
that first succeeds within indices 0..10 (at most 10 retries after the
initial attempt) yields that response, and if all eleven permitted
calls fail, the loop exits and `Exception("Error calling Gemini API")`
is raised — which no caller catches, terminating the run. -/
theorem chunk_dispatch_retry_policy (outcome : Nat → Option R) :
    ((∀ i, i ≤ 10 → outcome i = none) →
      dispatchWithRetries outcome = .error "Error calling Gemini API") ∧
    (∀ k r, k ≤ 10 → (∀ i, i < k → outcome i = none) → outcome k = some r →
      dispatchWithRetries outcome = .ok r) := by
  constructor
  · intro h
    exact retryLoop_all_fail outcome 10 0 (fun i _ hi => h i hi)
  · intro k r hk hfail hsucc
    exact retryLoop_first_success outcome 10 0 k r (Nat.zero_le _) hk
      (fun i _ hi => hfail i hi) hsucc

/-- C7, witness: a backend that always raises exhausts the retry budget
and raises the fatal error; a backend that first succeeds on the 11th
call (index 10, the last permitted retry) still yields its response. -/
theorem chunk_dispatch_retry_policy_witness :
    dispatchWithRetries (fun _ => (none : Option Nat)) =
      .error "Error calling Gemini API" ∧
    dispatchWithRetries (fun i => if i = 10 then some 7 else none) = .ok 7 := by
  constructor
  · exact (chunk_dispatch_retry_policy (fun _ => (none : Option Nat))).1 (fun _ _ => rfl)
  · exact (chunk_dispatch_retry_policy (fun i => if i = 10 then some 7 else none)).2
      10 7 le_rfl (fun i hi => by simp [Nat.ne_of_lt hi]) (by simp)

end WikiWeave
